import Mathlib

/-!
Shallow embedding of the ITI-TECH task-tracking dashboard's data-cache /
backend service layer (`src/services/supabaseBackend.ts`) and of the CSV
export routine (`handleExportCSV` in the main application component), together
with proofs settling the frozen claims about the natural-language spec.

Conventions of the embedding:
* The `SupabaseService` singleton becomes an explicit state record
  `SvcState` holding both the in-memory caches (`tasks`, `sectors`, ...)
  and the Remote Store's table contents (`remoteTasks`, ...).  Each
  `async` method becomes a pure state-transformer; the wall-clock values
  produced by `new Date().toISOString()` are passed in as a `now : String`
  parameter, and store-assigned row ids are passed as explicit parameters.
* Remote-store writes, collection re-fetches and subscriber notifications
  are recorded in bookkeeping fields (`writes`, `fetches`, `notifyCount`)
  so that frame claims ("no write issued", "one notification") are
  expressible.  Calls to the AI Completion Service are counted in
  `aiCalls`; the outcome of such a call is a parameter of type
  `Except Unit String` (success text, or a thrown error).
* JavaScript value semantics that the code relies on are modelled
  explicitly: string truthiness (`""` is falsy, every other string is
  truthy), `Number()` parsing on the integer fragment (`Option Int`,
  `none` = NaN), `String.prototype.split`, `padStart(2, '0')`, and
  `Array.prototype.join`.
-/

namespace ITITech

/-- Task status enum (`Status` in `types.ts`); the runtime values are the
non-empty strings 'Pendente', 'Em Andamento', 'Concluído', 'Bloqueado'. -/
inductive Status where
  | PENDING
  | IN_PROGRESS
  | COMPLETED
  | BLOCKED
deriving DecidableEq, Repr

/-- Task priority enum (`Priority` in `types.ts`); runtime values are the
non-empty strings 'Baixa', 'Média', 'Alta', 'Crítica'. -/
inductive Priority where
  | LOW
  | MEDIUM
  | HIGH
  | CRITICAL
deriving DecidableEq, Repr

/-- Kanban board column (`BoardStatus` in `types.ts`): TODO / DOING / DONE,
again non-empty strings at runtime. -/
inductive BoardStatus where
  | TODO
  | DOING
  | DONE
deriving DecidableEq, Repr

/-- `Task` entity (`types.ts`). -/
structure Task where
  id : String
  projectId : String
  collaboratorId : String
  sector : String
  plannedActivity : String
  deliveredActivity : String
  priority : Priority
  status : Status
  dueDate : String
  hoursDedicated : String
  notes : String
  updatedAt : String
deriving DecidableEq, Repr

/-- `User` entity (`types.ts`). -/
structure User where
  id : String
  name : String
  email : String
  avatar : String
  role : String
  sector : String
deriving DecidableEq, Repr

/-- `Sector` entity (`types.ts`). -/
structure Sector where
  id : String
  name : String
deriving DecidableEq, Repr

/-- `Project` entity (`types.ts`). -/
structure Project where
  id : String
  name : String
  sectorId : String
deriving DecidableEq, Repr

/-- `ActivityLog` entity (`types.ts`).  The row id is assigned by the
Remote Store; the embedding leaves it `""` since no claim observes it. -/
structure LogEntry where
  id : String
  userId : String
  action : String
  description : String
  timestamp : String
deriving DecidableEq, Repr

/-- Board subtask: an ordered `{text, completed}` pair (`Subtask` in
`types.ts`, used opaquely by the service layer). -/
structure Subtask where
  text : String
  completed : Bool
deriving DecidableEq, Repr

/-- `BoardTask` entity (`types.ts`). -/
structure BoardTask where
  id : String
  title : String
  description : String
  startDate : String
  endDate : String
  memberIds : List String
  subtasks : List Subtask
  status : BoardStatus
  updatedAt : String
deriving DecidableEq, Repr

/-- `ChatMessage` entity (`types.ts`): `userId` is `null` for AI-authored
rows; `user` is the locally hydrated author profile (absent on raw
Remote-Store rows, filled in by `fetchChatMessages`). -/
structure ChatMsg where
  id : String
  userId : Option String
  role : String
  content : String
  createdAt : String
  user : Option User
deriving DecidableEq, Repr

/-- `ChatState` (`types.ts`): the singleton chat turn-lock row. -/
structure ChatState where
  isLocked : Bool
  lockedByUserId : Option String
  updatedAt : String
deriving DecidableEq, Repr

/-- `SystemSettings` (`types.ts`). -/
structure SystemSettings where
  logoUrl : Option String
  faviconUrl : Option String
deriving DecidableEq, Repr

/-! ## JavaScript value semantics helpers -/

/-- JavaScript whitespace test used by `Number()` trimming (the common
whitespace characters; exotic Unicode space classes do not occur in this
application's data). -/
def isJsSpace (c : Char) : Bool :=
  c = ' ' || c = '\t' || c = '\n' || c = '\r'

/-- Trim leading and trailing JS whitespace from a character list. -/
def jsTrimChars (l : List Char) : List Char :=
  ((l.dropWhile isJsSpace).reverse.dropWhile isJsSpace).reverse

/-- Parse a non-empty all-digit character list as a natural number. -/
def parseNatDigits (l : List Char) : Option Nat :=
  if l = [] then none
  else if l.all Char.isDigit then
    some (l.foldl (fun n c => n * 10 + (c.toNat - 48)) 0)
  else none

/-- JavaScript `Number(s)` on the integer-literal fragment of its domain:
after trimming, the empty string is `0`, an optional sign followed by
digits is the signed integer, anything else is NaN (`none`).  Non-integer
numeric literals (decimals, hex, exponents) do not occur in the "HH:MM"
duration fields this function is applied to. -/
def jsNumber (s : String) : Option Int :=
  let t := jsTrimChars s.data
  match t with
  | [] => some 0
  | '-' :: rest => (parseNatDigits rest).map (fun n => -(n : Int))
  | '+' :: rest => (parseNatDigits rest).map (fun n => (n : Int))
  | _ => (parseNatDigits t).map (fun n => (n : Int))

/-- Split a character list at a separator character (JS
`String.prototype.split` with a single-character separator: the result is
never empty; an empty input yields `[[]]`). -/
def splitCharAux (sep : Char) : List Char → List Char → List (List Char)
  | [], acc => [acc.reverse]
  | c :: rest, acc =>
      if c = sep then acc.reverse :: splitCharAux sep rest []
      else splitCharAux sep rest (c :: acc)

/-- JS `s.split(sep)` for a single-character separator. -/
def jsSplit (sep : Char) (s : String) : List String :=
  (splitCharAux sep s.data []).map String.mk

/-- JS `Array.prototype.join(sep)`. -/
def jsJoin (sep : String) : List String → String
  | [] => ""
  | [a] => a
  | a :: b :: rest => a ++ sep ++ jsJoin sep (b :: rest)

/-- JS `s.padStart(2, '0')`. -/
def jsPadStart2 (s : String) : String :=
  if s.length ≥ 2 then s
  else if s.length = 1 then "0" ++ s
  else "00"

/-- JS `s.replace(/"/g, '""')` on the underlying characters. -/
def escDoubleQuotes : List Char → List Char
  | [] => []
  | c :: rest =>
      if c = '"' then '"' :: '"' :: escDoubleQuotes rest
      else c :: escDoubleQuotes rest

/-- String-level wrapper for `escDoubleQuotes`. -/
def jsEscapeQuotes (s : String) : String :=
  String.mk (escDoubleQuotes s.data)

/-! ## Service state

The `SupabaseService` singleton, made explicit.  Cache fields mirror the
private fields of the class; `remote*` fields model the Remote Store's
table contents (a fetch copies remote into cache); bookkeeping fields
record the externally observable effects. -/

/-- Explicit state of the backend service plus the Remote Store. -/
structure SvcState where
  -- in-memory caches (the class's private fields)
  tasks : List Task
  boardTasks : List BoardTask
  sectors : List Sector
  projects : List Project
  users : List User
  logs : List LogEntry
  chatMessages : List ChatMsg
  chatState : ChatState
  settings : SystemSettings
  currentUser : Option User
  initialized : Bool
  listeners : List Nat
  aiConfigured : Bool
  -- Remote Store tables
  remoteTasks : List Task
  remoteBoardTasks : List BoardTask
  remoteSectors : List Sector
  remoteProjects : List Project
  remoteUsers : List User
  remoteLogs : List LogEntry
  remoteChatMessages : List ChatMsg
  remoteChatState : ChatState
  -- bookkeeping of observable effects
  writes : List String
  fetches : List String
  notifyCount : Nat
  aiCalls : Nat
  realtimeSubscribed : Bool
deriving DecidableEq, Repr

/-- `notify()`: invoke every listener; modelled as counting invocations of
the broadcast. -/
def notifyAll (st : SvcState) : SvcState :=
  { st with notifyCount := st.notifyCount + 1 }

/-! Fetchers.  Each copies the Remote Store table into the cache and
records the fetch.  The store's `order by` clauses are modelled by keeping
each remote list already in the store's return order (newest first for
tasks/board tasks, oldest first for chat messages, newest first for logs);
row ids are unique, so ordering never affects the claims below. -/

/-- `fetchTasks()`. -/
def fetchTasksOp (st : SvcState) : SvcState :=
  { st with tasks := st.remoteTasks, fetches := "tasks" :: st.fetches }

/-- `fetchBoardTasks()`. -/
def fetchBoardTasksOp (st : SvcState) : SvcState :=
  { st with boardTasks := st.remoteBoardTasks,
            fetches := "board_tasks" :: st.fetches }

/-- `fetchSectors()`. -/
def fetchSectorsOp (st : SvcState) : SvcState :=
  { st with sectors := st.remoteSectors, fetches := "sectors" :: st.fetches }

/-- `fetchProjects()`. -/
def fetchProjectsOp (st : SvcState) : SvcState :=
  { st with projects := st.remoteProjects,
            fetches := "projects" :: st.fetches }

/-- `fetchUsers()`. -/
def fetchUsersOp (st : SvcState) : SvcState :=
  { st with users := st.remoteUsers, fetches := "profiles" :: st.fetches }

/-- `fetchLogs()`: most recent 20 log rows. -/
def fetchLogsOp (st : SvcState) : SvcState :=
  { st with logs := st.remoteLogs.take 20,
            fetches := "activity_logs" :: st.fetches }

/-- `fetchChatMessages()`: first 50 rows in creation order, hydrating each
row's `user` field from the cached users list. -/
def fetchChatMessagesOp (st : SvcState) : SvcState :=
  { st with
    chatMessages :=
      (st.remoteChatMessages.take 50).map
        (fun m => { m with user := match m.userId with
                                   | some uid => st.users.find? (fun u => u.id == uid)
                                   | none => none }),
    fetches := "chat_messages" :: st.fetches }

/-- `fetchChatState()`: read the singleton lock row. -/
def fetchChatStateOp (st : SvcState) : SvcState :=
  { st with chatState := st.remoteChatState,
            fetches := "chat_state" :: st.fetches }

/-- The Remote Store's public-URL prefix for the blob bucket
(environment-determined; modelled as a fixed prefix). -/
def storagePublicUrl (path : String) : String :=
  "https://storage/images/" ++ path

/-- `fetchSystemSettings()`: derive logo and favicon URLs with a
cache-busting timestamp. -/
def fetchSystemSettingsOp (now : String) (st : SvcState) : SvcState :=
  { st with
    settings :=
      { logoUrl := some (storagePublicUrl "system/app_logo.png" ++ "?t=" ++ now),
        faviconUrl := some (storagePublicUrl "system/app_favicon.png" ++ "?t=" ++ now) },
    fetches := "system_settings" :: st.fetches }

/-- `logout()`: sign out, drop the current user, clear the cached
collections, reset the ready flag and fire one notification.  (The code
does not touch `chatState`, `settings`, the listener list, or the realtime
subscription.) -/
def logout (st : SvcState) : SvcState :=
  notifyAll
    { st with
      currentUser := none
      tasks := []
      boardTasks := []
      logs := []
      sectors := []
      projects := []
      users := []
      chatMessages := []
      initialized := false }

/-- `initializeData()`: idempotent; on the first call fetch every
collection (the `Promise.all` batch, modelled sequentially in its listed
order), mark the cache ready, notify once, and install the realtime
subscription. -/
def initializeData (now : String) (st : SvcState) : SvcState :=
  if st.initialized then st
  else
    let st1 := fetchSystemSettingsOp now (fetchLogsOp (fetchChatStateOp
                 (fetchChatMessagesOp (fetchBoardTasksOp (fetchTasksOp
                   (fetchProjectsOp (fetchSectorsOp (fetchUsersOp st))))))))
    let st2 := notifyAll { st1 with initialized := true }
    { st2 with realtimeSubscribed := true }

/-- The fetch batch issued by a first `initializeData()` call, newest
fetch first. -/
def initFetchBatch : List String :=
  ["system_settings", "activity_logs", "chat_state", "chat_messages",
   "board_tasks", "tasks", "projects", "sectors", "profiles"]

/-- `logAction(action, description)`: returns silently when no user is
logged in; otherwise inserts one `activity_logs` row, re-fetches the log
collection and notifies. -/
def logAction (action description now : String) (st : SvcState) : SvcState :=
  match st.currentUser with
  | none => st
  | some u =>
      let entry : LogEntry :=
        { id := "", userId := u.id, action := action,
          description := description, timestamp := now }
      notifyAll (fetchLogsOp
        { st with remoteLogs := entry :: st.remoteLogs,
                  writes := "activity_logs" :: st.writes })

/-! ## Task actions -/

/-- Input of `createTask` (`Omit<Task, 'id' | 'updatedAt'>`). -/
structure NewTask where
  projectId : String
  collaboratorId : String
  sector : String
  plannedActivity : String
  deliveredActivity : String
  priority : Priority
  status : Status
  dueDate : String
  hoursDedicated : String
  notes : String
deriving DecidableEq, Repr

/-- `createTask(task)`: insert the row (the store assigns `newId`),
re-fetch tasks, notify, and log a CREATE action. -/
def createTask (t : NewTask) (newId now : String) (st : SvcState) : SvcState :=
  let row : Task :=
    { id := newId, projectId := t.projectId, collaboratorId := t.collaboratorId,
      sector := t.sector, plannedActivity := t.plannedActivity,
      deliveredActivity := t.deliveredActivity, priority := t.priority,
      status := t.status, dueDate := t.dueDate,
      hoursDedicated := t.hoursDedicated, notes := t.notes, updatedAt := now }
  let st1 := { st with remoteTasks := row :: st.remoteTasks,
                       writes := "tasks" :: st.writes }
  logAction "CREATE" ("Nova atividade: " ++ t.plannedActivity) now
    (notifyAll (fetchTasksOp st1))

/-- The `Partial<Task>` updates object accepted by `updateTask`.  A field
set to `none` is absent from the object; a field set to `some v` is
present with value `v`. -/
structure TaskUpdates where
  projectId : Option String := none
  collaboratorId : Option String := none
  plannedActivity : Option String := none
  deliveredActivity : Option String := none
  hoursDedicated : Option String := none
  dueDate : Option String := none
  status : Option Status := none
  priority : Option Priority := none
  notes : Option String := none
deriving DecidableEq, Repr

/-- JS truthiness guard for a string-valued update field
(`if (updates.x) dbUpdates.x = updates.x`): applied only when present and
non-empty. -/
def applyStrField (old : String) (upd : Option String) : String :=
  match upd with
  | some s => if s = "" then old else s
  | none => old

/-- The row produced by `updateTask`'s `dbUpdates` object on one task row:
`updated_at` is always set; each string field is copied only when truthy;
the enum fields (`status`, `priority`) have non-empty string values at
runtime, so they are copied exactly when present. -/
def applyTaskUpdates (t : Task) (u : TaskUpdates) (now : String) : Task :=
  { t with
    projectId := applyStrField t.projectId u.projectId
    collaboratorId := applyStrField t.collaboratorId u.collaboratorId
    plannedActivity := applyStrField t.plannedActivity u.plannedActivity
    deliveredActivity := applyStrField t.deliveredActivity u.deliveredActivity
    hoursDedicated := applyStrField t.hoursDedicated u.hoursDedicated
    dueDate := applyStrField t.dueDate u.dueDate
    status := u.status.getD t.status
    priority := u.priority.getD t.priority
    notes := applyStrField t.notes u.notes
    updatedAt := now }

/-- `updateTask(id, updates)`: write the update to the row with the given
id, re-fetch tasks, notify, and log an UPDATE action. -/
def updateTask (id : String) (u : TaskUpdates) (now : String)
    (st : SvcState) : SvcState :=
  let st1 := { st with
    remoteTasks :=
      st.remoteTasks.map (fun t => if t.id == id then applyTaskUpdates t u now else t),
    writes := "tasks" :: st.writes }
  logAction "UPDATE" "Atividade atualizada" now (notifyAll (fetchTasksOp st1))

/-- `toggleTaskCompletion(id)`: silently return when the id is not in the
cached task list; otherwise flip the status (anything but COMPLETED
toggles to COMPLETED, COMPLETED toggles to PENDING), auto-filling
`deliveredActivity` from `plannedActivity` only when completing a task
whose delivered text is falsy, and delegate to `updateTask`. -/
def toggleTaskCompletion (id now : String) (st : SvcState) : SvcState :=
  match st.tasks.find? (fun t => t.id == id) with
  | none => st
  | some task =>
      let newStatus :=
        if task.status = Status.COMPLETED then Status.PENDING else Status.COMPLETED
      let newDelivered :=
        if newStatus = Status.COMPLETED ∧ task.deliveredActivity = "" then
          task.plannedActivity
        else task.deliveredActivity
      updateTask id
        { status := some newStatus, deliveredActivity := some newDelivered }
        now st

/-- `deleteTask(id)`: delete the row, re-fetch tasks, notify, and log a
DELETE action. -/
def deleteTask (id now : String) (st : SvcState) : SvcState :=
  let st1 := { st with remoteTasks := st.remoteTasks.filter (fun t => t.id != id),
                       writes := "tasks" :: st.writes }
  logAction "DELETE" "Atividade removida" now (notifyAll (fetchTasksOp st1))

/-! ## Board-task actions -/

/-- Input of `createBoardTask` (`Omit<BoardTask, 'id' | 'updatedAt'>`). -/
structure NewBoardTask where
  title : String
  description : String
  startDate : String
  endDate : String
  memberIds : List String
  subtasks : List Subtask
  status : BoardStatus
deriving DecidableEq, Repr

/-- `createBoardTask(task)`: insert, re-fetch board tasks, notify, log a
CREATE action. -/
def createBoardTask (t : NewBoardTask) (newId now : String)
    (st : SvcState) : SvcState :=
  let row : BoardTask :=
    { id := newId, title := t.title, description := t.description,
      startDate := t.startDate, endDate := t.endDate,
      memberIds := t.memberIds, subtasks := t.subtasks,
      status := t.status, updatedAt := now }
  let st1 := { st with remoteBoardTasks := row :: st.remoteBoardTasks,
                       writes := "board_tasks" :: st.writes }
  logAction "CREATE" ("Novo quadro: " ++ t.title) now
    (notifyAll (fetchBoardTasksOp st1))

/-- The `Partial<BoardTask>` updates object accepted by
`updateBoardTask`. -/
structure BoardTaskUpdates where
  title : Option String := none
  description : Option String := none
  startDate : Option String := none
  endDate : Option String := none
  memberIds : Option (List String) := none
  subtasks : Option (List Subtask) := none
  status : Option BoardStatus := none
deriving DecidableEq, Repr

/-- `updateBoardTask`'s `dbUpdates` applied to one row: string fields are
copied when truthy; the array fields (`memberIds`, `subtasks`) are objects
and hence always truthy in JS, so they are copied exactly when present, as
is the enum `status`. -/
def applyBoardTaskUpdates (t : BoardTask) (u : BoardTaskUpdates)
    (now : String) : BoardTask :=
  { t with
    title := applyStrField t.title u.title
    description := applyStrField t.description u.description
    startDate := applyStrField t.startDate u.startDate
    endDate := applyStrField t.endDate u.endDate
    memberIds := u.memberIds.getD t.memberIds
    subtasks := u.subtasks.getD t.subtasks
    status := u.status.getD t.status
    updatedAt := now }

/-- `updateBoardTask(id, updates)`: write the update, re-fetch board
tasks, notify.  (Unlike the other task actions it logs nothing.) -/
def updateBoardTask (id : String) (u : BoardTaskUpdates) (now : String)
    (st : SvcState) : SvcState :=
  let st1 := { st with
    remoteBoardTasks :=
      st.remoteBoardTasks.map
        (fun t => if t.id == id then applyBoardTaskUpdates t u now else t),
    writes := "board_tasks" :: st.writes }
  notifyAll (fetchBoardTasksOp st1)

/-- `deleteBoardTask(id)`: delete, re-fetch board tasks, notify, log a
DELETE action. -/
def deleteBoardTask (id now : String) (st : SvcState) : SvcState :=
  let st1 := { st with
    remoteBoardTasks := st.remoteBoardTasks.filter (fun t => t.id != id),
    writes := "board_tasks" :: st.writes }
  logAction "DELETE" "Tarefa do quadro removida" now
    (notifyAll (fetchBoardTasksOp st1))

/-! ## Sector / project / user actions (no-error paths; a store error
throws instead and leaves the local state untouched) -/

/-- `createSector(name)`: insert (store assigns `newId`), re-fetch
sectors, notify.  No activity log. -/
def createSector (name newId : String) (st : SvcState) : SvcState :=
  notifyAll (fetchSectorsOp
    { st with remoteSectors := { id := newId, name := name } :: st.remoteSectors,
              writes := "sectors" :: st.writes })

/-- `deleteSector(id)`: delete, re-fetch sectors, notify.  No activity
log. -/
def deleteSector (id : String) (st : SvcState) : SvcState :=
  notifyAll (fetchSectorsOp
    { st with remoteSectors := st.remoteSectors.filter (fun s => s.id != id),
              writes := "sectors" :: st.writes })

/-- `createProject(name, sectorId)`: insert, re-fetch projects, notify.
No activity log. -/
def createProject (name sectorId newId : String) (st : SvcState) : SvcState :=
  notifyAll (fetchProjectsOp
    { st with
      remoteProjects :=
        { id := newId, name := name, sectorId := sectorId } :: st.remoteProjects,
      writes := "projects" :: st.writes })

/-- `deleteProject(id)`: delete, re-fetch projects, notify.  No activity
log. -/
def deleteProject (id : String) (st : SvcState) : SvcState :=
  notifyAll (fetchProjectsOp
    { st with remoteProjects := st.remoteProjects.filter (fun p => p.id != id),
              writes := "projects" :: st.writes })

/-- `createUser(name, email, role, sector)`: insert a profile row with a
generated id and a derived avatar URL, re-fetch users, notify.  No
activity log. -/
def createUser (name email role sector newId : String)
    (st : SvcState) : SvcState :=
  notifyAll (fetchUsersOp
    { st with
      remoteUsers :=
        { id := newId, name := name, email := email,
          avatar := "https://ui-avatars.com/api/?name=" ++ name,
          role := role, sector := sector } :: st.remoteUsers,
      writes := "profiles" :: st.writes })

/-- `deleteUser(id)`: delete the profile row, re-fetch users, notify.  No
activity log. -/
def deleteUser (id : String) (st : SvcState) : SvcState :=
  notifyAll (fetchUsersOp
    { st with remoteUsers := st.remoteUsers.filter (fun u => u.id != id),
              writes := "profiles" :: st.writes })

/-! ## Chat turn coordinator (`sendChatMessage`) -/

/-- Errors `sendChatMessage` can throw before starting a turn. -/
inductive SendErr where
  /-- "Chat indisponível: API Key não configurada." -/
  | apiKeyUnset
  /-- "O chat está bloqueado por outro usuário." (the `ChatBusy` error) -/
  | chatBusy
deriving DecidableEq, Repr

/-- The fixed apologetic model message inserted when the AI call fails. -/
def apologyText : String :=
  "Desculpe, ocorreu um erro ao processar sua solicitação com a IA."

/-- The bounded context window assembled for the AI call: the last 10
cached messages, each line prefixed with the author's display name
("Gemini AI" for model turns), then the current speaker and content. -/
def buildChatPrompt (cached : List ChatMsg) (speakerName content : String) : String :=
  let contextMessages := cached.drop (cached.length - 10)
  let historyPrompt :=
    contextMessages.foldl
      (fun acc msg =>
        let name := match msg.user with
                    | some u => u.name
                    | none => "Gemini AI"
        acc ++ name ++ ": " ++ msg.content ++ "\n")
      "Histórico da conversa:\n"
  historyPrompt ++ "\n" ++ "O usuário " ++ speakerName ++ " disse: " ++ content

/-- Insert one `chat_messages` row (append in creation order). -/
def insertChatMessage (uid : Option String) (role content now : String)
    (st : SvcState) : SvcState :=
  { st with
    remoteChatMessages :=
      st.remoteChatMessages ++
        [{ id := "", userId := uid, role := role, content := content,
           createdAt := now, user := none }],
    writes := "chat_messages" :: st.writes }

/-- Write the singleton `chat_state` row. -/
def writeChatLock (locked : Bool) (uid : Option String) (now : String)
    (st : SvcState) : SvcState :=
  { st with
    remoteChatState := { isLocked := locked, lockedByUserId := uid, updatedAt := now },
    writes := "chat_state" :: st.writes }

/-- `sendChatMessage(content)`.  Returns silently when no user is logged
in; throws when the AI client is unconfigured; throws `ChatBusy` when the
locally cached lock state is locked.  Otherwise: lock the chat in the
store, insert the user's message, call the AI (its outcome is the
`ai` parameter: generated text or a thrown error), insert the AI reply on
success or the fixed apology on failure (the `catch` branch), and in the
`finally` branch unconditionally unlock the chat.  The thrown-or-ok result
is the first component. -/
def sendChatMessage (content : String) (ai : Except Unit String)
    (now : String) (st : SvcState) : Except SendErr Unit × SvcState :=
  match st.currentUser with
  | none => (Except.ok (), st)
  | some u =>
      if st.aiConfigured = false then (Except.error SendErr.apiKeyUnset, st)
      else if st.chatState.isLocked then (Except.error SendErr.chatBusy, st)
      else
        let st1 := writeChatLock true (some u.id) now st
        let st2 := insertChatMessage (some u.id) "user" content now st1
        let st3 := { st2 with aiCalls := st2.aiCalls + 1 }
        let st4 :=
          match ai with
          | Except.ok text => insertChatMessage none "model" text now st3
          | Except.error _ => insertChatMessage none "model" apologyText now st3
        (Except.ok (), writeChatLock false none now st4)

/-! ## Total-hours aggregation -/

/-- The minutes contributed by one task inside `calculateTotalHours`'s
loop: skip a falsy (empty) `hoursDedicated`; split on ':', apply
`Number()` to the first two pieces (a missing second piece is
`Number(undefined)` = NaN), and contribute `h * 60 + m` only when neither
piece is NaN. -/
def taskMinutes (t : Task) : Int :=
  if t.hoursDedicated = "" then 0
  else
    let parts := jsSplit ':' t.hoursDedicated
    let h := jsNumber (parts.getD 0 "")
    let m := match parts.get? 1 with
             | some s => jsNumber s
             | none => none
    match h, m with
    | some hv, some mv => hv * 60 + mv
    | _, _ => 0

/-- `calculateTotalHours(collaboratorId?)`: sum minutes over all cached
tasks, or over one collaborator's tasks when a truthy collaborator id is
given (an absent or empty id selects every task), then format as
`Math.floor(total / 60)` hours and `total % 60` minutes (JS truncated
remainder), each `padStart(2, '0')`-padded. -/
def calculateTotalHours (collaboratorId : Option String) (st : SvcState) : String :=
  let targetTasks :=
    match collaboratorId with
    | some c => if c = "" then st.tasks
                else st.tasks.filter (fun t => t.collaboratorId == c)
    | none => st.tasks
  let totalMinutes := targetTasks.foldl (fun acc t => acc + taskMinutes t) 0
  let h := Int.fdiv totalMinutes 60
  let m := Int.tmod totalMinutes 60
  jsPadStart2 (toString h) ++ ":" ++ jsPadStart2 (toString m)

/-! ## CSV export (`handleExportCSV` in the main component) -/

/-- The fixed CSV header fields, in order. -/
def csvHeaders : List String :=
  ["Projeto", "Setor", "Colaborador", "Atividade Planejada",
   "Atividade Entregue", "Status", "Prioridade", "Data Entrega",
   "Horas", "Observações"]

/-- The component's `escape` helper: `const s = str ? String(str) : ''`
(missing, null and empty values all render as the empty string), then wrap
in double quotes with embedded double quotes doubled. -/
def csvEscapeField (field : Option String) : String :=
  let s := match field with
           | some v => if v = "" then "" else v
           | none => ""
  "\"" ++ jsEscapeQuotes s ++ "\""

/-- Runtime string value of a `Status` (`types.ts` enum). -/
def statusText : Status → String
  | Status.PENDING => "Pendente"
  | Status.IN_PROGRESS => "Em Andamento"
  | Status.COMPLETED => "Concluído"
  | Status.BLOCKED => "Bloqueado"

/-- Runtime string value of a `Priority` (`types.ts` enum). -/
def priorityText : Priority → String
  | Priority.LOW => "Baixa"
  | Priority.MEDIUM => "Média"
  | Priority.HIGH => "Alta"
  | Priority.CRITICAL => "Crítica"

/-- `getProjectName(projectId)` from the component: the referenced
project's name, or 'Projeto Desconhecido' when the project is missing (or
its name is falsy, via `||`). -/
def getProjectName (projects : List Project) (projectId : String) : String :=
  match projects.find? (fun p => p.id == projectId) with
  | some p => if p.name = "" then "Projeto Desconhecido" else p.name
  | none => "Projeto Desconhecido"

/-- The collaborator-name lookup inside the CSV row mapper:
`users.find(...)?.name || 'N/A'`. -/
def getCollaboratorName (users : List User) (collaboratorId : String) : String :=
  match users.find? (fun u => u.id == collaboratorId) with
  | some u => if u.name = "" then "N/A" else u.name
  | none => "N/A"

/-- One exported CSV row for a task: the ten escaped fields joined with
commas.  Task fields that can be null/undefined at runtime (they come
straight from the store) are passed as `Option`; the embedding's `Task`
carries them as present strings. -/
def csvTaskRow (projects : List Project) (users : List User) (t : Task) : String :=
  jsJoin ","
    ([some (getProjectName projects t.projectId),
      some t.sector,
      some (getCollaboratorName users t.collaboratorId),
      some t.plannedActivity,
      some t.deliveredActivity,
      some (statusText t.status),
      some (priorityText t.priority),
      some t.dueDate,
      some t.hoursDedicated,
      some t.notes].map csvEscapeField)

/-- The full CSV text: byte-order mark, then the header row and the task
rows joined with newlines. -/
def csvContent (rows : List String) : String :=
  "\uFEFF" ++ jsJoin "\n" (jsJoin "," csvHeaders :: rows)

/-- `handleExportCSV` on a (non-empty) filtered task list: build one row
per task and assemble the file content. -/
def handleExportCSV (projects : List Project) (users : List User)
    (filteredTasks : List Task) : String :=
  csvContent (filteredTasks.map (csvTaskRow projects users))

/-! ## Claim-side (spec-worded) definitions, for refinement statements -/

/-- Written from the spec's words for the total-hours claim: the minutes
contributed by one duration string — zero when the string is empty or
malformed (a colon piece that fails numeric conversion, including a
missing minutes piece), otherwise sixty times the hours piece plus the
minutes piece. -/
def specContribution (s : String) : Int :=
  if s = "" then 0
  else
    match jsNumber ((jsSplit ':' s).getD 0 ""), ((jsSplit ':' s).get? 1).bind jsNumber with
    | some h, some m => 60 * h + m
    | _, _ => 0

/-- Written from the spec's words: display a minute total as
`floor(total/60)` hours and `total mod 60` minutes, both zero-padded to
two digits. -/
def specFormatTotal (total : Int) : String :=
  jsPadStart2 (toString (Int.fdiv total 60)) ++ ":" ++
    jsPadStart2 (toString (Int.tmod total 60))

/-- Inverse of quote doubling: collapse each doubled double quote back to
a single one (what a standard CSV parser does inside a quoted field). -/
def collapseEsc : List Char → List Char
  | [] => []
  | [c] => [c]
  | c :: d :: rest =>
      if c = '"' ∧ d = '"' then '"' :: collapseEsc rest
      else c :: collapseEsc (d :: rest)

/-- String-level wrapper for `collapseEsc`. -/
def jsUnescapeQuotes (s : String) : String :=
  String.mk (collapseEsc s.data)

/-- Effect summary of one mutation action: the remote-store writes and
collection re-fetches it added (newest first), how many notifications it
fired, and how many activity-log rows it appended. -/
def mutationAudit (st st' : SvcState) (writesAdded fetchesAdded : List String)
    (notifies logsAdded : Nat) : Prop :=
  st'.writes = writesAdded ++ st.writes ∧
  st'.fetches = fetchesAdded ++ st.fetches ∧
  st'.notifyCount = st.notifyCount + notifies ∧
  st'.remoteLogs.length = st.remoteLogs.length + logsAdded

/-- `n` sequential `initializeData()` calls. -/
def initIter : Nat → String → SvcState → SvcState
  | 0, _, st => st
  | n + 1, now, st => initializeData now (initIter n now st)

/-! ## Concrete example data -/

/-- A sample logged-in user. -/
def exUser : User :=
  { id := "u1", name := "Alice", email := "alice@iti.tech", avatar := "",
    role := "admin", sector := "TI" }

/-- The unlocked chat-lock row. -/
def unlockedChat : ChatState :=
  { isLocked := false, lockedByUserId := none, updatedAt := "t0" }

/-- A chat-lock row held by another user. -/
def lockedChat : ChatState :=
  { isLocked := true, lockedByUserId := some "u2", updatedAt := "t0" }

/-- A quiescent service state: logged in, AI configured, chat unlocked,
all collections empty, one registered listener. -/
def baseState : SvcState :=
  { tasks := [], boardTasks := [], sectors := [], projects := [], users := [],
    logs := [], chatMessages := [], chatState := unlockedChat,
    settings := { logoUrl := none, faviconUrl := none },
    currentUser := some exUser, initialized := false, listeners := [0],
    aiConfigured := true,
    remoteTasks := [], remoteBoardTasks := [], remoteSectors := [],
    remoteProjects := [], remoteUsers := [], remoteLogs := [],
    remoteChatMessages := [], remoteChatState := unlockedChat,
    writes := [], fetches := [], notifyCount := 0, aiCalls := 0,
    realtimeSubscribed := false }

/-- `baseState` with the cached chat lock held by another user. -/
def busyState : SvcState :=
  { baseState with chatState := lockedChat, remoteChatState := lockedChat }

/-- A sample pending task with an empty delivered activity. -/
def exTask : Task :=
  { id := "t1", projectId := "p1", collaboratorId := "u1", sector := "TI",
    plannedActivity := "Planejar sprint", deliveredActivity := "",
    priority := Priority.MEDIUM, status := Status.PENDING,
    dueDate := "2026-02-01", hoursDedicated := "01:30", notes := "nota",
    updatedAt := "t0" }

/-- `baseState` holding `exTask` in the cache and in the Remote Store. -/
def taskCacheState : SvcState :=
  { baseState with tasks := [exTask], remoteTasks := [exTask] }

/-- A copy of `exTask` with a given id and duration string. -/
def hoursTask (i hours : String) : Task :=
  { exTask with id := i, hoursDedicated := hours }

/-- Cache with the four duration strings of the spec's duration-parsing
test. -/
def hoursState : SvcState :=
  { baseState with
    tasks := [hoursTask "h1" "01:30", hoursTask "h2" "00:45",
              hoursTask "h3" "", hoursTask "h4" "bad:data"] }

/-- A sample `createTask` input. -/
def exNewTask : NewTask :=
  { projectId := "p1", collaboratorId := "u1", sector := "TI",
    plannedActivity := "Nova atividade", deliveredActivity := "",
    priority := Priority.LOW, status := Status.PENDING,
    dueDate := "2026-03-01", hoursDedicated := "00:30", notes := "" }

/-- A sample `createBoardTask` input. -/
def exNewBoardTask : NewBoardTask :=
  { title := "Quadro", description := "", startDate := "2026-03-01",
    endDate := "2026-03-02", memberIds := ["u1"], subtasks := [],
    status := BoardStatus.TODO }

/-- A sample project list for the CSV export. -/
def exProjects : List Project := [{ id := "p1", name := "Alpha", sectorId := "s1" }]

/-- A sample user list for the CSV export. -/
def exUsers : List User := [exUser]

/-- CSV example task with an embedded double quote in a field. -/
def csvTaskA : Task :=
  { exTask with plannedActivity := "He said \"hi\"", priority := Priority.HIGH,
                dueDate := "2026-01-31", notes := "ok" }

/-- CSV example task whose project and collaborator are unknown and whose
date/hours/notes fields are empty. -/
def csvTaskB : Task :=
  { id := "t2", projectId := "p9", collaboratorId := "u9", sector := "RH",
    plannedActivity := "Plano", deliveredActivity := "Feito",
    priority := Priority.LOW, status := Status.COMPLETED, dueDate := "",
    hoursDedicated := "", notes := "", updatedAt := "t0" }

/-! ## Helper lemmas -/

/-- Updating exactly the rows matching an id and then searching for that
id finds the updated first match, provided the update preserves ids. -/
theorem find?_map_update (l : List Task) (id : String) (f : Task → Task) (t : Task)
    (hid : ∀ x : Task, (f x).id = x.id)
    (hfind : l.find? (fun x => x.id == id) = some t) :
    (l.map (fun x => if x.id == id then f x else x)).find? (fun x => x.id == id)
      = some (f t) := by
  induction l with
  | nil => simp at hfind
  | cons x xs ih =>
      cases hp : (x.id == id) with
      | true =>
          rw [@List.find?_cons_of_pos _ (fun y => y.id == id) x xs hp] at hfind
          obtain rfl : x = t := by injection hfind
          have hfp : ((f x).id == id) = true := by rw [hid]; exact hp
          rw [List.map_cons, if_pos hp,
              @List.find?_cons_of_pos _ (fun y => y.id == id) (f x) _ hfp]
      | false =>
          have hp' : ¬ ((x.id == id) = true) := by simp [hp]
          rw [@List.find?_cons_of_neg _ (fun y => y.id == id) x xs hp'] at hfind
          rw [List.map_cons, if_neg hp',
              @List.find?_cons_of_neg _ (fun y => y.id == id) x _ hp']
          exact ih hfind

/-- Folding an additive accumulator equals the base plus the mapped sum. -/
theorem foldl_add_map (f : Task → Int) (l : List Task) (a : Int) :
    l.foldl (fun acc t => acc + f t) a = a + (l.map f).sum := by
  induction l generalizing a with
  | nil => simp
  | cons x xs ih => simp [List.foldl_cons, ih, add_assoc]

/-- `logAction` never touches the task cache. -/
theorem logAction_tasks (a d n : String) (st : SvcState) :
    (logAction a d n st).tasks = st.tasks := by
  cases h : st.currentUser <;> simp [logAction, h, notifyAll, fetchLogsOp]

/-- `logAction` never touches the remote tasks table. -/
theorem logAction_remoteTasks (a d n : String) (st : SvcState) :
    (logAction a d n st).remoteTasks = st.remoteTasks := by
  cases h : st.currentUser <;> simp [logAction, h, notifyAll, fetchLogsOp]

/-- On a ready cache, `initializeData` does nothing at all. -/
theorem initializeData_noop (now : String) (st : SvcState)
    (h : st.initialized = true) : initializeData now st = st := by
  simp [initializeData, h]

/-- `initializeData` always leaves the cache marked ready. -/
theorem initializeData_ready (now : String) (st : SvcState) :
    (initializeData now st).initialized = true := by
  by_cases h : st.initialized
  · simp [initializeData, h]
  · simp [initializeData, h, notifyAll, fetchSystemSettingsOp, fetchLogsOp,
          fetchChatStateOp, fetchChatMessagesOp, fetchBoardTasksOp,
          fetchTasksOp, fetchProjectsOp, fetchSectorsOp, fetchUsersOp]

/-- Collapsing quote doubling steps through a non-quote head. -/
theorem collapseEsc_cons (c : Char) (xs : List Char) (hc : ¬ c = '"') :
    collapseEsc (c :: xs) = c :: collapseEsc xs := by
  cases xs with
  | nil => rfl
  | cons d rest => simp [collapseEsc, hc]

/-- Quote doubling is inverted by collapsing doubled quotes. -/
theorem collapseEsc_escDoubleQuotes (l : List Char) :
    collapseEsc (escDoubleQuotes l) = l := by
  induction l with
  | nil => rfl
  | cons c rest ih =>
      by_cases hc : c = '"'
      · subst hc
        simp only [escDoubleQuotes, if_pos rfl]
        simp [collapseEsc, ih]
      · simp only [escDoubleQuotes, if_neg hc]
        rw [collapseEsc_cons c _ hc, ih]

/-! ## Claim theorems -/

/-- C1: every `sendChatMessage` call that passes the optimistic lock check
(a logged-in user, a configured AI client, cached lock unlocked) and
reaches the claim step appends, whether the AI Completion Service call
succeeds or throws, exactly one user-authored message followed by exactly
one model-authored message (the AI reply on success, the fixed apologetic
message on failure), leaves the stored lock UNLOCKED, and surfaces no
error to the caller. -/
theorem sendChatMessage_turn_resolves
    (st : SvcState) (u : User) (content now : String) (ai : Except Unit String)
    (hu : st.currentUser = some u)
    (hai : st.aiConfigured = true)
    (hlock : st.chatState.isLocked = false) :
    (sendChatMessage content ai now st).1 = Except.ok () ∧
    (sendChatMessage content ai now st).2.remoteChatMessages =
      st.remoteChatMessages ++
        [{ id := "", userId := some u.id, role := "user", content := content,
           createdAt := now, user := none },
         { id := "", userId := none, role := "model",
           content := match ai with
                      | Except.ok text => text
                      | Except.error _ => apologyText,
           createdAt := now, user := none }] ∧
    (sendChatMessage content ai now st).2.remoteChatState.isLocked = false ∧
    (sendChatMessage content ai now st).2.remoteChatState.lockedByUserId = none := by
  cases ai <;>
    simp [sendChatMessage, hu, hai, hlock, writeChatLock, insertChatMessage]

/-- Witness for C1: a concrete turn whose AI call throws still returns
ok, appends the user message plus the apologetic model message, and
unlocks. -/
theorem sendChatMessage_turn_resolves_witness :
    (baseState.currentUser = some exUser ∧ baseState.aiConfigured = true ∧
       baseState.chatState.isLocked = false) ∧
    ((sendChatMessage "Olá" (Except.error ()) "t1" baseState).1 = Except.ok () ∧
     (sendChatMessage "Olá" (Except.error ()) "t1" baseState).2.remoteChatMessages =
       baseState.remoteChatMessages ++
         [{ id := "", userId := some exUser.id, role := "user", content := "Olá",
            createdAt := "t1", user := none },
          { id := "", userId := none, role := "model", content := apologyText,
            createdAt := "t1", user := none }] ∧
     (sendChatMessage "Olá" (Except.error ()) "t1" baseState).2.remoteChatState.isLocked
        = false ∧
     (sendChatMessage "Olá" (Except.error ()) "t1" baseState).2.remoteChatState.lockedByUserId
        = none) :=
  ⟨⟨rfl, rfl, rfl⟩,
   sendChatMessage_turn_resolves baseState exUser "Olá" "t1" (Except.error ())
     rfl rfl rfl⟩

/-- C2: when the locally cached chat lock shows locked, `sendChatMessage`
(with a logged-in user and a configured AI client) throws the ChatBusy
error and changes nothing: no store write, no inserted message, no AI
call. -/
theorem sendChatMessage_busy_rejects
    (st : SvcState) (u : User) (content now : String) (ai : Except Unit String)
    (hu : st.currentUser = some u)
    (hai : st.aiConfigured = true)
    (hlock : st.chatState.isLocked = true) :
    sendChatMessage content ai now st = (Except.error SendErr.chatBusy, st) := by
  simp [sendChatMessage, hu, hai, hlock]

/-- Witness for C2: a concrete busy state is rejected untouched. -/
theorem sendChatMessage_busy_rejects_witness :
    (busyState.currentUser = some exUser ∧ busyState.aiConfigured = true ∧
       busyState.chatState.isLocked = true) ∧
    sendChatMessage "Olá" (Except.ok "resposta") "t1" busyState =
      (Except.error SendErr.chatBusy, busyState) :=
  ⟨⟨rfl, rfl, rfl⟩,
   sendChatMessage_busy_rejects busyState exUser "Olá" "t1" (Except.ok "resposta")
     rfl rfl rfl⟩

/-- C4 counterexample: `logout` does not reset the cached chat lock state
to its initial (unlocked) value — on a state whose cached lock is held,
the lock survives logout untouched, so the claim that every cached
collection including the chat lock state is cleared fails. -/
theorem logout_chatState_cex :
    (logout busyState).chatState = busyState.chatState ∧
    (logout busyState).chatState.isLocked = true := by
  exact ⟨rfl, rfl⟩

/-- C4 amended: `logout()` clears the task, board-task, log, sector,
project, user and chat-message caches and the current user, resets the
ready flag, and fires exactly one notification; the subscriber list, the
cached chat lock state and the settings are left unchanged (and no store
write or fetch is issued). -/
theorem logout_clears_caches (st : SvcState) :
    (logout st).tasks = [] ∧ (logout st).boardTasks = [] ∧
    (logout st).logs = [] ∧ (logout st).sectors = [] ∧
    (logout st).projects = [] ∧ (logout st).users = [] ∧
    (logout st).chatMessages = [] ∧ (logout st).currentUser = none ∧
    (logout st).initialized = false ∧
    (logout st).notifyCount = st.notifyCount + 1 ∧
    (logout st).listeners = st.listeners ∧
    (logout st).chatState = st.chatState ∧
    (logout st).settings = st.settings ∧
    (logout st).writes = st.writes ∧
    (logout st).fetches = st.fetches := by
  simp [logout, notifyAll]

/-- C10: toggling completion with an id that matches no cached task is a
complete no-op: the state — collections, remote tables, writes, fetches,
notifications and logs — is unchanged. -/
theorem toggleTaskCompletion_unknown_noop (st : SvcState) (id now : String)
    (hfind : st.tasks.find? (fun t => t.id == id) = none) :
    toggleTaskCompletion id now st = st := by
  simp [toggleTaskCompletion, hfind]

/-- Witness for C10: a concrete unknown id leaves a concrete state
untouched. -/
theorem toggleTaskCompletion_unknown_noop_witness :
    taskCacheState.tasks.find? (fun t => t.id == "nope") = none ∧
    toggleTaskCompletion "nope" "t1" taskCacheState = taskCacheState :=
  ⟨by decide, toggleTaskCompletion_unknown_noop taskCacheState "nope" "t1" (by decide)⟩

/-- After `updateTask`, the task cache is the remote table with the
update mapped over the matching rows. -/
theorem updateTask_tasks (id : String) (u : TaskUpdates) (now : String)
    (st : SvcState) :
    (updateTask id u now st).tasks
      = st.remoteTasks.map (fun x => if x.id == id then applyTaskUpdates x u now else x) := by
  simp [updateTask, logAction_tasks, notifyAll, fetchTasksOp]

/-- After `updateTask`, the remote table has the update mapped over the
matching rows. -/
theorem updateTask_remoteTasks (id : String) (u : TaskUpdates) (now : String)
    (st : SvcState) :
    (updateTask id u now st).remoteTasks
      = st.remoteTasks.map (fun x => if x.id == id then applyTaskUpdates x u now else x) := by
  simp [updateTask, logAction_remoteTasks, notifyAll, fetchTasksOp]

/-- C3: on any cached task (cache in sync with the store),
`toggleTaskCompletion` flips the status COMPLETED↔PENDING; entering
COMPLETED with an empty `deliveredActivity` copies `plannedActivity` into
it, while entering COMPLETED with a non-empty `deliveredActivity`, or
leaving COMPLETED, leaves `deliveredActivity` unchanged. -/
theorem toggleTaskCompletion_flip_autofill
    (st : SvcState) (id now : String) (t : Task)
    (hfind : st.tasks.find? (fun x => x.id == id) = some t)
    (hsync : st.remoteTasks = st.tasks) :
    ∃ t', (toggleTaskCompletion id now st).tasks.find? (fun x => x.id == id)
            = some t' ∧
      t'.status =
        (if t.status = Status.COMPLETED then Status.PENDING else Status.COMPLETED) ∧
      t'.deliveredActivity =
        (if t.status ≠ Status.COMPLETED ∧ t.deliveredActivity = "" then
           t.plannedActivity
         else t.deliveredActivity) := by
  have htog : toggleTaskCompletion id now st =
      updateTask id
        { status := some (if t.status = Status.COMPLETED then Status.PENDING
                          else Status.COMPLETED),
          deliveredActivity :=
            some (if (if t.status = Status.COMPLETED then Status.PENDING
                      else Status.COMPLETED) = Status.COMPLETED ∧
                     t.deliveredActivity = "" then
                    t.plannedActivity
                  else t.deliveredActivity) } now st := by
    simp [toggleTaskCompletion, hfind]
  refine ⟨applyTaskUpdates t
      { status := some (if t.status = Status.COMPLETED then Status.PENDING
                        else Status.COMPLETED),
        deliveredActivity :=
          some (if (if t.status = Status.COMPLETED then Status.PENDING
                    else Status.COMPLETED) = Status.COMPLETED ∧
                   t.deliveredActivity = "" then
                  t.plannedActivity
                else t.deliveredActivity) } now, ?_, ?_, ?_⟩
  · rw [htog, updateTask_tasks, hsync]
    exact find?_map_update st.tasks id _ t (fun x => rfl) hfind
  · rfl
  · by_cases hc : t.status = Status.COMPLETED
    · simp [applyTaskUpdates, applyStrField, hc]
    · by_cases hd : t.deliveredActivity = ""
      · by_cases hpa : t.plannedActivity = ""
        · simp [applyTaskUpdates, applyStrField, hc, hd, hpa]
        · simp [applyTaskUpdates, applyStrField, hc, hd, hpa]
      · simp [applyTaskUpdates, applyStrField, hc, hd]

/-- Witness for C3: toggling a concrete pending task with empty delivered
activity completes it and auto-fills the delivered activity. -/
theorem toggleTaskCompletion_flip_autofill_witness :
    (taskCacheState.tasks.find? (fun x => x.id == "t1") = some exTask ∧
       taskCacheState.remoteTasks = taskCacheState.tasks) ∧
    (∃ t', (toggleTaskCompletion "t1" "t1time" taskCacheState).tasks.find?
              (fun x => x.id == "t1") = some t' ∧
       t'.status =
         (if exTask.status = Status.COMPLETED then Status.PENDING
          else Status.COMPLETED) ∧
       t'.deliveredActivity =
         (if exTask.status ≠ Status.COMPLETED ∧ exTask.deliveredActivity = "" then
            exTask.plannedActivity
          else exTask.deliveredActivity)) :=
  ⟨⟨by decide, rfl⟩,
   toggleTaskCompletion_flip_autofill taskCacheState "t1" "t1time" exTask
     (by decide) rfl⟩

/-- C9: an `updateTask` whose updates object carries a text field present
but equal to the empty string leaves that stored field unchanged — the
falsy-but-valid value is skipped rather than applied. -/
theorem updateTask_preserves_empty_fields
    (st : SvcState) (id now : String) (u : TaskUpdates) (r : Task)
    (hfind : st.remoteTasks.find? (fun x => x.id == id) = some r) :
    (updateTask id u now st).remoteTasks.find? (fun x => x.id == id)
        = some (applyTaskUpdates r u now) ∧
    (u.projectId = some "" →
       (applyTaskUpdates r u now).projectId = r.projectId) ∧
    (u.collaboratorId = some "" →
       (applyTaskUpdates r u now).collaboratorId = r.collaboratorId) ∧
    (u.plannedActivity = some "" →
       (applyTaskUpdates r u now).plannedActivity = r.plannedActivity) ∧
    (u.deliveredActivity = some "" →
       (applyTaskUpdates r u now).deliveredActivity = r.deliveredActivity) ∧
    (u.hoursDedicated = some "" →
       (applyTaskUpdates r u now).hoursDedicated = r.hoursDedicated) ∧
    (u.dueDate = some "" →
       (applyTaskUpdates r u now).dueDate = r.dueDate) ∧
    (u.notes = some "" →
       (applyTaskUpdates r u now).notes = r.notes) := by
  refine ⟨?_, ?_, ?_, ?_, ?_, ?_, ?_, ?_⟩
  · rw [updateTask_remoteTasks]
    exact find?_map_update st.remoteTasks id _ r (fun x => rfl) hfind
  all_goals intro h
  all_goals simp [applyTaskUpdates, applyStrField, h]

/-- Witness for C9: a concrete update presenting empty `deliveredActivity`
and `notes` strings leaves both stored fields unchanged. -/
theorem updateTask_preserves_empty_fields_witness :
    taskCacheState.remoteTasks.find? (fun x => x.id == "t1") = some exTask ∧
    ((updateTask "t1" { deliveredActivity := some "", notes := some "" } "t2"
        taskCacheState).remoteTasks.find? (fun x => x.id == "t1")
        = some (applyTaskUpdates exTask
            { deliveredActivity := some "", notes := some "" } "t2") ∧
     (({ deliveredActivity := some "", notes := some "" } : TaskUpdates).projectId
          = some "" →
        (applyTaskUpdates exTask
            { deliveredActivity := some "", notes := some "" } "t2").projectId
          = exTask.projectId) ∧
     (({ deliveredActivity := some "", notes := some "" } : TaskUpdates).collaboratorId
          = some "" →
        (applyTaskUpdates exTask
            { deliveredActivity := some "", notes := some "" } "t2").collaboratorId
          = exTask.collaboratorId) ∧
     (({ deliveredActivity := some "", notes := some "" } : TaskUpdates).plannedActivity
          = some "" →
        (applyTaskUpdates exTask
            { deliveredActivity := some "", notes := some "" } "t2").plannedActivity
          = exTask.plannedActivity) ∧
     (({ deliveredActivity := some "", notes := some "" } : TaskUpdates).deliveredActivity
          = some "" →
        (applyTaskUpdates exTask
            { deliveredActivity := some "", notes := some "" } "t2").deliveredActivity
          = exTask.deliveredActivity) ∧
     (({ deliveredActivity := some "", notes := some "" } : TaskUpdates).hoursDedicated
          = some "" →
        (applyTaskUpdates exTask
            { deliveredActivity := some "", notes := some "" } "t2").hoursDedicated
          = exTask.hoursDedicated) ∧
     (({ deliveredActivity := some "", notes := some "" } : TaskUpdates).dueDate
          = some "" →
        (applyTaskUpdates exTask
            { deliveredActivity := some "", notes := some "" } "t2").dueDate
          = exTask.dueDate) ∧
     (({ deliveredActivity := some "", notes := some "" } : TaskUpdates).notes
          = some "" →
        (applyTaskUpdates exTask
            { deliveredActivity := some "", notes := some "" } "t2").notes
          = exTask.notes)) :=
  ⟨by decide,
   updateTask_preserves_empty_fields taskCacheState "t1" "t2"
     { deliveredActivity := some "", notes := some "" } exTask (by decide)⟩

/-- C8: `initializeData()` is idempotent: starting from a not-yet-ready
cache, any number N ≥ 1 of sequential calls equals the single first call,
which issues exactly one batch of collection fetches, marks the cache
ready, fires one notification, and writes nothing; every later call is a
no-op. -/
theorem initializeData_idempotent (st : SvcState) (now : String) (n : Nat)
    (h : st.initialized = false) (hn : 1 ≤ n) :
    initIter n now st = initializeData now st ∧
    (initializeData now st).initialized = true ∧
    (initializeData now st).fetches = initFetchBatch ++ st.fetches ∧
    (initializeData now st).notifyCount = st.notifyCount + 1 ∧
    (initializeData now st).writes = st.writes := by
  have hiter : ∀ m : Nat, initIter (m + 1) now st = initializeData now st := by
    intro m
    induction m with
    | zero => rfl
    | succ k ih =>
        show initializeData now (initIter (k + 1) now st) = initializeData now st
        rw [ih, initializeData_noop now _ (initializeData_ready now st)]
  obtain ⟨m, rfl⟩ : ∃ m, n = m + 1 :=
    ⟨n - 1, (Nat.succ_pred_eq_of_pos hn).symm⟩
  refine ⟨hiter m, initializeData_ready now st, ?_, ?_, ?_⟩ <;>
    simp [initializeData, h, initFetchBatch, notifyAll, fetchSystemSettingsOp,
          fetchLogsOp, fetchChatStateOp, fetchChatMessagesOp, fetchBoardTasksOp,
          fetchTasksOp, fetchProjectsOp, fetchSectorsOp, fetchUsersOp]

/-- Witness for C8: three sequential calls on a concrete fresh state
collapse to the first call, which fetches one batch and notifies once. -/
theorem initializeData_idempotent_witness :
    (baseState.initialized = false ∧ 1 ≤ 3) ∧
    (initIter 3 "t1" baseState = initializeData "t1" baseState ∧
     (initializeData "t1" baseState).initialized = true ∧
     (initializeData "t1" baseState).fetches = initFetchBatch ++ baseState.fetches ∧
     (initializeData "t1" baseState).notifyCount = baseState.notifyCount + 1 ∧
     (initializeData "t1" baseState).writes = baseState.writes) :=
  ⟨⟨rfl, by decide⟩,
   initializeData_idempotent baseState "t1" 3 rfl (by decide)⟩

/-- C6: `calculateTotalHours` sums `hoursDedicated` over all cached tasks
(or over one collaborator's tasks when a collaborator id is given) by
parsing each "HH:MM" string into minutes — an empty or malformed entry
(a colon piece that fails numeric conversion) contributing 0 — and
formats the total as floor(total/60) hours and total mod 60 minutes, both
zero-padded to two digits; in particular the inputs
"01:30", "00:45", "", "bad:data" yield "02:15". -/
theorem calculateTotalHours_spec (st : SvcState) :
    (calculateTotalHours none st =
       specFormatTotal ((st.tasks.map (fun t => specContribution t.hoursDedicated)).sum)) ∧
    (∀ c : String, c ≠ "" →
       calculateTotalHours (some c) st =
         specFormatTotal
           (((st.tasks.filter (fun t => t.collaboratorId == c)).map
               (fun t => specContribution t.hoursDedicated)).sum)) ∧
    calculateTotalHours none hoursState = "02:15" := by
  have hcontrib : ∀ t : Task, taskMinutes t = specContribution t.hoursDedicated := by
    intro t
    by_cases h : t.hoursDedicated = ""
    · simp [taskMinutes, specContribution, h]
    · simp only [taskMinutes, specContribution, if_neg h]
      cases (jsSplit ':' t.hoursDedicated).get? 1 with
      | none =>
          cases jsNumber ((jsSplit ':' t.hoursDedicated).getD 0 "") <;> simp
      | some s =>
          cases jsNumber ((jsSplit ':' t.hoursDedicated).getD 0 "") with
          | none => simp
          | some hv => cases jsNumber s <;> simp [mul_comm]
  refine ⟨?_, ?_, by decide⟩
  · simp [calculateTotalHours, foldl_add_map, hcontrib, specFormatTotal]
  · intro c hc
    simp [calculateTotalHours, hc, foldl_add_map, hcontrib, specFormatTotal]

/-- Witness for C6: the per-collaborator branch evaluated at the concrete
collaborator id of the sample cache. -/
theorem calculateTotalHours_spec_witness :
    ("u1" ≠ "") ∧
    calculateTotalHours (some "u1") hoursState =
      specFormatTotal
        (((hoursState.tasks.filter (fun t => t.collaboratorId == "u1")).map
            (fun t => specContribution t.hoursDedicated)).sum) :=
  ⟨by decide, (calculateTotalHours_spec hoursState).2.1 "u1" (by decide)⟩

/-- C5 counterexample: with a user logged in, `createSector` — one of the
sector/project/user CRUD actions the claim covers — appends no
ActivityLog entry at all, refuting "each additionally appends exactly one
ActivityLog entry". -/
theorem mutation_activity_log_cex :
    baseState.currentUser = some exUser ∧
    ¬ ((createSector "Comercial" "s9" baseState).remoteLogs.length
         = baseState.remoteLogs.length + 1) :=
  ⟨rfl, by decide⟩

/-- C5 amended: with a user logged in, each of `createTask`, `updateTask`,
`deleteTask`, `toggleTaskCompletion` (on a cached task), `createBoardTask`
and `deleteBoardTask` performs one write to its collection, re-fetches it,
fires a notification (two broadcasts in total, one with the re-fetch and
one with the log refresh), and appends exactly one ActivityLog entry;
`updateBoardTask` and the sector/project/user CRUD actions perform the
write, the re-fetch and one notification but append no ActivityLog
entry. -/
theorem mutation_effects_audit
    (st : SvcState) (u : User) (hu : st.currentUser = some u)
    (nt : NewTask) (bt : NewBoardTask) (tu : TaskUpdates) (bu : BoardTaskUpdates)
    (tk : Task) (id newId now name email role sector sectorId : String)
    (hfind : st.tasks.find? (fun x => x.id == id) = some tk) :
    mutationAudit st (createTask nt newId now st)
      ["activity_logs", "tasks"] ["activity_logs", "tasks"] 2 1 ∧
    mutationAudit st (updateTask id tu now st)
      ["activity_logs", "tasks"] ["activity_logs", "tasks"] 2 1 ∧
    mutationAudit st (toggleTaskCompletion id now st)
      ["activity_logs", "tasks"] ["activity_logs", "tasks"] 2 1 ∧
    mutationAudit st (deleteTask id now st)
      ["activity_logs", "tasks"] ["activity_logs", "tasks"] 2 1 ∧
    mutationAudit st (createBoardTask bt newId now st)
      ["activity_logs", "board_tasks"] ["activity_logs", "board_tasks"] 2 1 ∧
    mutationAudit st (updateBoardTask id bu now st)
      ["board_tasks"] ["board_tasks"] 1 0 ∧
    mutationAudit st (deleteBoardTask id now st)
      ["activity_logs", "board_tasks"] ["activity_logs", "board_tasks"] 2 1 ∧
    mutationAudit st (createSector name newId st) ["sectors"] ["sectors"] 1 0 ∧
    mutationAudit st (deleteSector id st) ["sectors"] ["sectors"] 1 0 ∧
    mutationAudit st (createProject name sectorId newId st)
      ["projects"] ["projects"] 1 0 ∧
    mutationAudit st (deleteProject id st) ["projects"] ["projects"] 1 0 ∧
    mutationAudit st (createUser name email role sector newId st)
      ["profiles"] ["profiles"] 1 0 ∧
    mutationAudit st (deleteUser id st) ["profiles"] ["profiles"] 1 0 := by
  have hupd : ∀ tu2 : TaskUpdates,
      mutationAudit st (updateTask id tu2 now st)
        ["activity_logs", "tasks"] ["activity_logs", "tasks"] 2 1 := by
    intro tu2
    simp [mutationAudit, updateTask, logAction, notifyAll, fetchTasksOp,
          fetchLogsOp, hu]
  have htog : mutationAudit st (toggleTaskCompletion id now st)
      ["activity_logs", "tasks"] ["activity_logs", "tasks"] 2 1 := by
    have : toggleTaskCompletion id now st =
        updateTask id
          { status := some (if tk.status = Status.COMPLETED then Status.PENDING
                            else Status.COMPLETED),
            deliveredActivity :=
              some (if (if tk.status = Status.COMPLETED then Status.PENDING
                        else Status.COMPLETED) = Status.COMPLETED ∧
                       tk.deliveredActivity = "" then
                      tk.plannedActivity
                    else tk.deliveredActivity) } now st := by
      simp [toggleTaskCompletion, hfind]
    rw [this]; exact hupd _
  refine ⟨?_, hupd tu, htog, ?_, ?_, ?_, ?_, ?_, ?_, ?_, ?_, ?_, ?_⟩ <;>
    simp [mutationAudit, createTask, deleteTask, createBoardTask,
          updateBoardTask, deleteBoardTask, createSector, deleteSector,
          createProject, deleteProject, createUser, deleteUser, logAction,
          notifyAll, fetchTasksOp, fetchBoardTasksOp, fetchSectorsOp,
          fetchProjectsOp, fetchUsersOp, fetchLogsOp, hu]

/-- Witness for C5 amended: the thirteen mutation actions evaluated on a
concrete logged-in state. -/
theorem mutation_effects_audit_witness :
    (taskCacheState.currentUser = some exUser ∧
       taskCacheState.tasks.find? (fun x => x.id == "t1") = some exTask) ∧
    (mutationAudit taskCacheState (createTask exNewTask "n1" "t3" taskCacheState)
       ["activity_logs", "tasks"] ["activity_logs", "tasks"] 2 1 ∧
     mutationAudit taskCacheState (updateTask "t1" {} "t3" taskCacheState)
       ["activity_logs", "tasks"] ["activity_logs", "tasks"] 2 1 ∧
     mutationAudit taskCacheState (toggleTaskCompletion "t1" "t3" taskCacheState)
       ["activity_logs", "tasks"] ["activity_logs", "tasks"] 2 1 ∧
     mutationAudit taskCacheState (deleteTask "t1" "t3" taskCacheState)
       ["activity_logs", "tasks"] ["activity_logs", "tasks"] 2 1 ∧
     mutationAudit taskCacheState
       (createBoardTask exNewBoardTask "n1" "t3" taskCacheState)
       ["activity_logs", "board_tasks"] ["activity_logs", "board_tasks"] 2 1 ∧
     mutationAudit taskCacheState (updateBoardTask "t1" {} "t3" taskCacheState)
       ["board_tasks"] ["board_tasks"] 1 0 ∧
     mutationAudit taskCacheState (deleteBoardTask "t1" "t3" taskCacheState)
       ["activity_logs", "board_tasks"] ["activity_logs", "board_tasks"] 2 1 ∧
     mutationAudit taskCacheState (createSector "Nome" "n1" taskCacheState)
       ["sectors"] ["sectors"] 1 0 ∧
     mutationAudit taskCacheState (deleteSector "t1" taskCacheState)
       ["sectors"] ["sectors"] 1 0 ∧
     mutationAudit taskCacheState (createProject "Nome" "s1" "n1" taskCacheState)
       ["projects"] ["projects"] 1 0 ∧
     mutationAudit taskCacheState (deleteProject "t1" taskCacheState)
       ["projects"] ["projects"] 1 0 ∧
     mutationAudit taskCacheState
       (createUser "Nome" "e@x" "user" "TI" "n1" taskCacheState)
       ["profiles"] ["profiles"] 1 0 ∧
     mutationAudit taskCacheState (deleteUser "t1" taskCacheState)
       ["profiles"] ["profiles"] 1 0) :=
  ⟨⟨rfl, by decide⟩,
   mutation_effects_audit taskCacheState exUser rfl exNewTask exNewBoardTask
     {} {} exTask "t1" "n1" "t3" "Nome" "e@x" "user" "TI" "s1" (by decide)⟩

set_option maxRecDepth 40000 in
/-- C7: the CSV export starts with the byte-order mark followed by the
fixed header row; every present field renders wrapped in double quotes
with embedded double quotes doubled (and collapsing the doubling recovers
the original text); the field `He said "hi"` renders as
`"He said ""hi"""`; a missing/undefined field renders as an empty quoted
string; and a concrete two-task export produces exactly the expected file
text. -/
theorem csv_export_format :
    (∀ rows : List String, ∃ rest, csvContent rows =
        ("\uFEFF" ++ "Projeto,Setor,Colaborador,Atividade Planejada,Atividade Entregue,Status,Prioridade,Data Entrega,Horas,Observações")
          ++ rest) ∧
    (∀ s : String,
       csvEscapeField (some s) = "\"" ++ jsEscapeQuotes s ++ "\"" ∧
       jsUnescapeQuotes (jsEscapeQuotes s) = s) ∧
    csvEscapeField (some "He said \"hi\"") = "\"He said \"\"hi\"\"\"" ∧
    csvEscapeField none = "\"\"" ∧
    handleExportCSV exProjects exUsers [csvTaskA, csvTaskB] =
      "\uFEFF" ++ "Projeto,Setor,Colaborador,Atividade Planejada,Atividade Entregue,Status,Prioridade,Data Entrega,Horas,Observações"
        ++ "\n"
        ++ "\"Alpha\",\"TI\",\"Alice\",\"He said \"\"hi\"\"\",\"\",\"Pendente\",\"Alta\",\"2026-01-31\",\"01:30\",\"ok\""
        ++ "\n"
        ++ "\"Projeto Desconhecido\",\"RH\",\"N/A\",\"Plano\",\"Feito\",\"Concluído\",\"Baixa\",\"\",\"\",\"\"" := by
  have hh : jsJoin "," csvHeaders =
      "Projeto,Setor,Colaborador,Atividade Planejada,Atividade Entregue,Status,Prioridade,Data Entrega,Horas,Observações" := by
    decide
  refine ⟨?_, ?_, by decide, by decide, by decide⟩
  · intro rows
    cases rows with
    | nil => exact ⟨"", by decide⟩
    | cons r rs =>
        refine ⟨"\n" ++ jsJoin "\n" (r :: rs), ?_⟩
        have step : ∀ a b : String,
            a ++ jsJoin "\n" (b :: r :: rs)
              = (a ++ b) ++ ("\n" ++ jsJoin "\n" (r :: rs)) := by
          intro a b
          rw [jsJoin, String.append_assoc b "\n" (jsJoin "\n" (r :: rs)),
              String.append_assoc]
        show "\uFEFF" ++ jsJoin "\n" (jsJoin "," csvHeaders :: r :: rs) = _
        rw [hh, step]
  · intro s
    constructor
    · by_cases h : s = ""
      · subst h; decide
      · simp [csvEscapeField, h]
    · simp [jsUnescapeQuotes, jsEscapeQuotes, collapseEsc_escDoubleQuotes]

end ITITech
